import Mathlib

/-!
Verification of the docker-based process runner (`service/runner_docker.go`).

The Go code is shallowly embedded: the runner's mutable state (the
`containerIDs` map guarded by a mutex) becomes an explicit state value that
operations transform; calls into the docker client API are modelled by oracle
arguments describing the outcome the runtime reports (success, a
`NoSuchContainer` error, or some other error); timestamps (`time.Time`) are
integers compared with `<` (`time.Time.Before` is a strict comparison).

A Go map is embedded as an association list with unique keys; assignment
`m[k] = v` on a nil map panics in Go, which we model by returning `none`,
while `delete` and `range` on a nil map are no-ops, which we model by
`Option.map` over the optional list.
-/

set_option autoImplicit false

namespace DockerRunner

abbrev ContainerID := String

/-- Errors reported by the docker client. `noSuchContainer` embeds
`*docker.NoSuchContainer`; `masked e` embeds an error wrapped by `maskAny`
(an `errgo` mask that preserves the cause); `otherError` is any other
error shape. -/
inductive DockerError where
  | noSuchContainer
  | otherError
  | masked (e : DockerError)
deriving DecidableEq

/-- Embeds `errgo.Cause`: unwraps the mask chain down to the original error. -/
def errgoCause : DockerError → DockerError
  | .noSuchContainer => .noSuchContainer
  | .otherError => .otherError
  | .masked e => errgoCause e

/-- Embeds `isNoSuchContainer` (runner_docker.go lines 282-290): the error is
a `NoSuchContainer` directly, or its `errgo` cause is. -/
def isNoSuchContainer (e : DockerError) : Bool :=
  match e with
  | .noSuchContainer => true
  | _ =>
    match errgoCause e with
    | .noSuchContainer => true
    | _ => false

/-- The runner's registry state: the `containerIDs` map (container ID to the
locally recorded creation time). `none` embeds a nil map (as left behind by
`Cleanup`, which assigns `r.containerIDs = nil`). -/
structure RunnerState where
  containerIDs : Option (List (ContainerID × Int))
deriving DecidableEq

/-- Insert/overwrite a key in the association list, as Go map assignment
`m[id] = t` does on a non-nil map: overwrite the value when the key is
present, add the entry otherwise. -/
def insertAssoc : List (ContainerID × Int) → ContainerID → Int →
    List (ContainerID × Int)
  | [], id, t => [(id, t)]
  | e :: rest, id, t =>
    if e.1 = id then (id, t) :: rest else e :: insertAssoc rest id t

/-- Embeds `recordContainerID` (lines 166-170): `r.containerIDs[id] = time.Now()`.
Assignment into a nil map panics in Go, modelled by `none`. -/
def recordContainerID (s : RunnerState) (id : ContainerID) (now : Int) :
    Option RunnerState :=
  match s.containerIDs with
  | none => none
  | some m => some ⟨some (insertAssoc m id now)⟩

/-- Embeds `unrecordContainerID` (lines 172-177): `delete(r.containerIDs, id)`.
`delete` on a nil map is a no-op in Go. -/
def unrecordContainerID (s : RunnerState) (id : ContainerID) : RunnerState :=
  ⟨s.containerIDs.map (fun m => m.filter (fun e => e.1 ≠ id))⟩

/-- The container IDs currently registered (keys of the `containerIDs` map;
a nil map has no keys). -/
def registryKeys (s : RunnerState) : List ContainerID :=
  match s.containerIDs with
  | none => []
  | some m => m.map Prod.fst

/-- Embeds `GetContainerDir` (lines 54-59): returns `hostDir` when a
volumes-from container is configured, `"/data"` otherwise. -/
def GetContainerDir (volumesFrom hostDir : String) : String :=
  if volumesFrom ≠ "" then hostDir else "/data"

/-! ### Container creation options built by `Start` (lines 75-112) -/

/-- A volume specification passed to `Start`. -/
structure Volume where
  hostPath : String
  containerPath : String
  readOnly : Bool
deriving DecidableEq

/-- One `docker.PortBinding`. -/
structure PortBinding where
  hostIP : String
  hostPort : String
deriving DecidableEq

/-- The `docker.Config` fields `Start` fills in. The `ExposedPorts` map is
embedded as its list of keys in insertion order. -/
structure DockerConfig where
  image : String
  entrypoint : List String
  cmd : List String
  tty : Bool
  user : String
  exposedPorts : List String
deriving DecidableEq

/-- The `docker.HostConfig` fields `Start` fills in; the `PortBindings` map is
embedded as an association list in insertion order. -/
structure HostConfig where
  portBindings : List (String × List PortBinding)
  publishAllPorts : Bool
  autoRemove : Bool
  volumesFrom : List String
  binds : List String
deriving DecidableEq

/-- The `docker.CreateContainerOptions` built by `Start`. -/
structure CreateContainerOptions where
  name : String
  config : DockerConfig
  hostConfig : HostConfig
deriving DecidableEq

/-- Embeds `strings.Replace(containerName, ":", "", -1)`: with a single-char
pattern and empty replacement, Go removes every colon. -/
def stripColons (s : String) : String :=
  ⟨s.data.filter (fun c => c ≠ ':')⟩

/-- Embeds `fmt.Sprintf("%d/tcp", p)` for a port number. -/
def portKey (p : Nat) : String :=
  toString p ++ "/tcp"

/-- Embeds the bind string built at lines 96-99:
`hostPath:containerPath`, with `:ro` appended when read-only. -/
def bindString (v : Volume) : String :=
  let bind := v.hostPath ++ ":" ++ v.containerPath
  if v.readOnly then bind ++ ":ro" else bind

/-- Embeds the construction of `opts` in `Start` (lines 75-112): sanitized
name, entrypoint/cmd/tty/user, one exposed port and one all-interfaces host
binding per requested port, and either the volumes-from reference or the
explicit bind mounts. -/
def buildCreateContainerOptions (image user volumesFrom command : String)
    (args : List String) (volumes : List Volume) (ports : List Nat)
    (containerName : String) : CreateContainerOptions :=
  { name := stripColons containerName
    config :=
      { image := image
        entrypoint := [command]
        cmd := args
        tty := true
        user := user
        exposedPorts := ports.map portKey }
    hostConfig :=
      { portBindings :=
          ports.map (fun p => (portKey p, [⟨"0.0.0.0", toString p⟩]))
        publishAllPorts := true
        autoRemove := false
        volumesFrom := if volumesFrom ≠ "" then [volumesFrom] else []
        binds :=
          if volumesFrom ≠ "" then []
          else volumes.map bindString } }

/-! ### The `Start` registry effect (lines 61-128) -/

/-- The outcome the docker client reports to one `Start` call: the image pull
fails, `CreateContainer` fails, `StartContainer` fails after a container with
the given ID was created, or everything succeeds. -/
inductive StartOutcome where
  | pullFail
  | createFail
  | startFail (id : ContainerID)
  | ok (id : ContainerID)
deriving DecidableEq

/-- Result of one `Start` call: a handle on the given container ID together
with the new runner state, an error together with the runner state left
behind, or a Go runtime panic (write to a nil map). -/
inductive StartResult where
  | ok (id : ContainerID) (s : RunnerState)
  | err (s : RunnerState)
  | panicked
deriving DecidableEq

/-- Embeds the registry effect of `Start` (lines 61-128): a pull or create
failure returns the error before anything is recorded; after a successful
create the ID is recorded (`recordContainerID`, line 118) whether or not the
subsequent `StartContainer` succeeds. -/
def Start (s : RunnerState) (now : Int) (o : StartOutcome) : StartResult :=
  match o with
  | .pullFail => .err s
  | .createFail => .err s
  | .startFail id =>
    match recordContainerID s id now with
    | none => .panicked
    | some s' => .err s'
  | .ok id =>
    match recordContainerID s id now with
    | none => .panicked
    | some s' => .ok id s'

/-! ### `Cleanup` (lines 147-163) -/

/-- A `docker.RemoveContainerOptions` request issued to the client. -/
structure RemoveRequest where
  id : ContainerID
  force : Bool
deriving DecidableEq

/-- What one `Cleanup` call did: the removal requests it issued, the IDs whose
removal failed with a logged warning, the state left behind, and the returned
error. -/
structure CleanupResult where
  requests : List RemoveRequest
  warnings : List ContainerID
  state : RunnerState
  err : Option DockerError
deriving DecidableEq

/-- Embeds `Cleanup` (lines 147-163): for every registered ID a forced
`RemoveContainer` is issued; a failure is logged as a warning unless it is
`isNoSuchContainer`; afterwards `r.containerIDs = nil` and `nil` is returned.
`removeResult id` is the error (if any) the client reports for removing `id`. -/
def Cleanup (s : RunnerState)
    (removeResult : ContainerID → Option DockerError) : CleanupResult :=
  let ids := registryKeys s
  { requests := ids.map (fun id => ⟨id, true⟩)
    warnings := ids.filter (fun id =>
      match removeResult id with
      | some e => ! isNoSuchContainer e
      | none => false)
    state := ⟨none⟩
    err := none }

/-! ### The garbage collector (lines 179-238) -/

/-- The container data `InspectContainer` returns that `canGC` looks at:
`c.State.StateString()`, `c.State.FinishedAt` and `c.Created`. -/
structure ContainerInfo where
  stateString : String
  finishedAt : Int
  created : Int
deriving DecidableEq

/-- Embeds the `canGC` closure (lines 181-196): dead or exited containers are
collectable when they finished before `now - gcDelay`; created (never
started) containers when the runtime-reported creation time is before
`now - gcDelay`; every other state is not collectable. -/
def canGC (gcDelay now : Int) (c : ContainerInfo) : Bool :=
  let gcBoundary := now - gcDelay
  match c.stateString with
  | "dead" | "exited" => c.finishedAt < gcBoundary
  | "created" => c.created < gcBoundary
  | _ => false

/-- What `InspectContainer` reports for one candidate. -/
inductive InspectResult where
  | err (e : DockerError)
  | ok (c : ContainerInfo)
deriving DecidableEq

/-- Embeds one iteration of the collector's candidate loop (lines 199-219):
an inspect failure unregisters the ID when it is `isNoSuchContainer` and
otherwise only logs; an inspected container is removed when `canGC` holds,
and unregistered only when that removal succeeds (`removeResult = none`). -/
def processCandidate (s : RunnerState) (id : ContainerID)
    (insp : InspectResult) (removeResult : Option DockerError)
    (gcDelay now : Int) : RunnerState :=
  match insp with
  | .err e =>
    if isNoSuchContainer e then unrecordContainerID s id else s
  | .ok c =>
    if canGC gcDelay now c then
      match removeResult with
      | none => unrecordContainerID s id
      | some _ => s
    else s

/-- One collector pass over a list of candidates, each with the inspect and
remove outcomes the client reports for it; the loop never aborts, every
candidate is processed. -/
def gcPass (s : RunnerState) (gcDelay now : Int) :
    List (ContainerID × InspectResult × Option DockerError) → RunnerState
  | [] => s
  | (id, insp, rr) :: rest =>
    gcPass (processCandidate s id insp rr gcDelay now) gcDelay now rest

/-- Embeds `gatherCollectableContainerIDs` (lines 226-238): the IDs whose
recorded timestamp is before `now - gcDelay` (ranging over a nil map yields
nothing). -/
def gatherCollectableContainerIDs (s : RunnerState) (gcDelay now : Int) :
    List ContainerID :=
  match s.containerIDs with
  | none => []
  | some m =>
    let gcBoundary := now - gcDelay
    (m.filter (fun e => e.2 < gcBoundary)).map Prod.fst

/-! ### The container handle (lines 241-279) -/

/-- Embeds `maskAny` applied to a client error. -/
def maskAny (e : DockerError) : DockerError := .masked e

/-- Embeds `dockerContainer.Cleanup` (lines 270-279). The method only issues a
forced `RemoveContainer` for its own container ID and masks the client error;
the runner state is passed through untouched because the handle holds no
reference to the runner and its registry (its fields are only the client and
the container). The returned triple is (runner state after the call, the
request issued, the returned error). -/
def dockerContainerCleanup (s : RunnerState) (containerID : ContainerID)
    (removeResult : Option DockerError) :
    RunnerState × RemoveRequest × Option DockerError :=
  (s, ⟨containerID, true⟩, removeResult.map maskAny)

/-! ### Trace semantics for the registry invariant -/

/-- One operation of a client-visible history: a `Start` call with the
outcome the docker client reports, a `Cleanup` call with its per-ID removal
outcomes, or the collector processing one candidate. -/
inductive Op where
  | start (now : Int) (o : StartOutcome)
  | cleanup (removeResult : ContainerID → Option DockerError)
  | collect (id : ContainerID) (insp : InspectResult)
      (removeResult : Option DockerError) (gcDelay now : Int)

/-- Apply one operation to the runner state; `none` means the operation
panicked (Start recording into a nil registry). -/
def applyOp (s : RunnerState) : Op → Option RunnerState
  | .start now o =>
    match Start s now o with
    | .ok _ s' => some s'
    | .err s' => some s'
    | .panicked => none
  | .cleanup rr => some (Cleanup s rr).state
  | .collect id insp rr d n => some (processCandidate s id insp rr d n)

/-- Run a sequence of operations from a given state. -/
def runFrom (s : RunnerState) : List Op → Option RunnerState
  | [] => some s
  | op :: rest =>
    match applyOp s op with
    | none => none
    | some s' => runFrom s' rest

/-- Run a sequence of operations from the fresh runner state
(`containerIDs: make(map[string]time.Time)`, line 31). -/
def runOps (ops : List Op) : Option RunnerState :=
  runFrom ⟨some []⟩ ops

/-- Append an ID to the list unless already present. -/
def insertIfAbsent : List ContainerID → ContainerID → List ContainerID
  | [], id => [id]
  | x :: rest, id => if x = id then x :: rest else x :: insertIfAbsent rest id

/-- Whether the collector unregisters a candidate: the inspection reported
`NoSuchContainer`, or the container was eligible and its removal succeeded. -/
def collectUnregisters (insp : InspectResult)
    (removeResult : Option DockerError) (gcDelay now : Int) : Bool :=
  match insp with
  | .err e => isNoSuchContainer e
  | .ok c => canGC gcDelay now c && removeResult.isNone

/-- Follows the spec's words, as amended, one operation at a time: an
identifier joins the live set when its container creation succeeded (a
`Start` that reached a successful `CreateContainer`, even when the subsequent
container start failed), and leaves it when removed by `Cleanup` or the
Collector. -/
def specStep (live : List ContainerID) : Op → List ContainerID
  | .start _ o =>
    match o with
    | .startFail id => insertIfAbsent live id
    | .ok id => insertIfAbsent live id
    | _ => live
  | .cleanup _ => []
  | .collect id insp rr d n =>
    if collectUnregisters insp rr d n then live.filter (fun x => x ≠ id)
    else live

/-- Follows the spec's words, as amended: the identifiers for which container
creation succeeded and which have not yet been removed by `Cleanup` or the
Collector. -/
def specLiveIDs (ops : List Op) : List ContainerID :=
  ops.foldl specStep []

/-- Follows the claim's words, as stated: an identifier joins the live set
only when `Start` returned successfully (no identifier of a `Start` call that
returned an error counted), and leaves it when removed by `Cleanup` or the
Collector. -/
def specStepClaimed (live : List ContainerID) : Op → List ContainerID
  | .start _ o =>
    match o with
    | .ok id => insertIfAbsent live id
    | _ => live
  | .cleanup _ => []
  | .collect id insp rr d n =>
    if collectUnregisters insp rr d n then live.filter (fun x => x ≠ id)
    else live

/-- Follows the claim's words, as stated: the identifiers for which `Start`
returned successfully and which have not yet been removed by `Cleanup` or
the Collector. -/
def specLiveIDsClaimed (ops : List Op) : List ContainerID :=
  ops.foldl specStepClaimed []

/-! ## Helper lemmas -/

theorem map_fst_filter_ne (m : List (ContainerID × Int)) (id : ContainerID) :
    (m.filter (fun e => e.1 ≠ id)).map Prod.fst =
      (m.map Prod.fst).filter (fun x => x ≠ id) := by
  induction m with
  | nil => rfl
  | cons a l ih =>
    simp only [ne_eq, decide_not] at ih ⊢
    by_cases ha : a.1 = id <;> simp [List.filter_cons, ha, ih]

theorem map_fst_insertAssoc (m : List (ContainerID × Int)) (id : ContainerID)
    (t : Int) :
    (insertAssoc m id t).map Prod.fst = insertIfAbsent (m.map Prod.fst) id := by
  induction m with
  | nil => rfl
  | cons a l ih =>
    by_cases ha : a.1 = id <;> simp [insertAssoc, insertIfAbsent, ha, ih]

theorem registryKeys_unrecord (s : RunnerState) (id : ContainerID) :
    registryKeys (unrecordContainerID s id) =
      (registryKeys s).filter (fun x => x ≠ id) := by
  obtain ⟨ids⟩ := s
  cases ids with
  | none => rfl
  | some m => simpa [unrecordContainerID, registryKeys] using map_fst_filter_ne m id

theorem not_mem_registryKeys_unrecord (s : RunnerState) (id : ContainerID) :
    id ∉ registryKeys (unrecordContainerID s id) := by
  rw [registryKeys_unrecord]
  simp

theorem mem_insertIfAbsent (l : List ContainerID) (id : ContainerID) :
    id ∈ insertIfAbsent l id := by
  induction l with
  | nil => simp [insertIfAbsent]
  | cons x rest ih =>
    by_cases hx : x = id <;> simp [insertIfAbsent, hx, ih]

theorem mem_keys_insertAssoc (m : List (ContainerID × Int)) (id : ContainerID)
    (t : Int) : id ∈ (insertAssoc m id t).map Prod.fst := by
  rw [map_fst_insertAssoc]
  exact mem_insertIfAbsent (m.map Prod.fst) id

theorem processCandidate_eq_ite (s : RunnerState) (id : ContainerID)
    (insp : InspectResult) (rr : Option DockerError) (gcDelay now : Int) :
    processCandidate s id insp rr gcDelay now =
      if collectUnregisters insp rr gcDelay now then unrecordContainerID s id
      else s := by
  cases insp with
  | err e => simp [processCandidate, collectUnregisters]
  | ok c =>
    cases rr <;> cases hc : canGC gcDelay now c <;>
      simp [processCandidate, collectUnregisters, hc]

/-! ## Claim C1: GetContainerDir -/

/-- Claim C1 counterexample: with a volumes-from container configured
(`"ref" ≠ ""`), `GetContainerDir` returns the host directory, not the fixed
`"/data"` path; with volumes-from unconfigured it returns `"/data"`, not the
host directory — the claim has the two modes swapped. -/
theorem getContainerDir_claim_false :
    GetContainerDir "ref" "/host" = "/host" ∧ "/host" ≠ "/data" ∧
    GetContainerDir "" "/host" = "/data" ∧ "/data" ≠ "/host" :=
  ⟨rfl, by decide, rfl, by decide⟩

/-- Claim C1, amended: `GetContainerDir(hostDir)` returns `hostDir` unchanged
(identity) whenever a volumes-from container is configured, and returns the
fixed in-container data path `"/data"`, regardless of the `hostDir` argument,
when volumes-from is not configured. -/
theorem getContainerDir_amended (vf hostDir : String) :
    (vf ≠ "" → GetContainerDir vf hostDir = hostDir) ∧
    (vf = "" → GetContainerDir vf hostDir = "/data") := by
  constructor
  · intro h
    simp [GetContainerDir, h]
  · intro h
    simp [GetContainerDir, h]

/-- Witness for the amended C1 at concrete inputs. -/
theorem getContainerDir_amended_witness :
    (("ref" : String) ≠ "" ∧ GetContainerDir "ref" "/host" = "/host") ∧
    GetContainerDir "" "/x" = "/data" :=
  ⟨⟨by decide, (getContainerDir_amended "ref" "/host").1 (by decide)⟩,
    (getContainerDir_amended "" "/x").2 rfl⟩

/-! ## Claim C4: collector eligibility classification -/

/-- Claim C4: a container is eligible for collection exactly when its state is
dead or exited with a finish time older than `now - gcDelay`, or its state is
created with a runtime-reported creation time older than `now - gcDelay`;
every other state is not eligible. -/
theorem gc_eligibility (gcDelay now : Int) (c : ContainerInfo) :
    canGC gcDelay now c = true ↔
      (((c.stateString = "dead" ∨ c.stateString = "exited") ∧
          c.finishedAt < now - gcDelay) ∨
        (c.stateString = "created" ∧ c.created < now - gcDelay)) := by
  obtain ⟨st, fin, cr⟩ := c
  by_cases h1 : st = "dead"
  · subst h1
    simp [canGC]
  · by_cases h2 : st = "exited"
    · subst h2
      simp [canGC]
    · by_cases h3 : st = "created"
      · subst h3
        simp [canGC]
      · have : canGC gcDelay now ⟨st, fin, cr⟩ = false := by
          unfold canGC
          split <;> simp_all
        simp [this, h1, h2, h3]

/-- Witness for C4: an exited container that finished long enough ago is
eligible. -/
theorem gc_eligibility_witness :
    canGC 10 100 ⟨"exited", 0, 50⟩ = true :=
  (gc_eligibility 10 100 ⟨"exited", 0, 50⟩).mpr
    (Or.inl ⟨Or.inr rfl, by decide⟩)

/-! ## Claim C10: Start panics after Cleanup -/

/-- Claim C10: `Cleanup` leaves the registry map nil, so a later `Start` that
reaches a successful container creation (whether or not the subsequent
container start succeeds) panics when recording the new identifier — a write
to a nil Go map. -/
theorem start_after_cleanup_panics (s : RunnerState)
    (rr : ContainerID → Option DockerError) (now : Int) (id : ContainerID) :
    (Cleanup s rr).state.containerIDs = none ∧
    Start (Cleanup s rr).state now (.ok id) = .panicked ∧
    Start (Cleanup s rr).state now (.startFail id) = .panicked :=
  ⟨rfl, rfl, rfl⟩

/-! ## Claim C9: handle-driven Cleanup and the registry -/

/-- Claim C9 counterexample: a successful `dockerContainer.Cleanup` (forced
removal request issued, no error returned) leaves the runner's registry
untouched — the identifier is still registered afterwards, contradicting the
claim that handle-driven cleanup unregisters it. -/
theorem handle_cleanup_claim_false :
    (dockerContainerCleanup ⟨some [("c1", 0)]⟩ "c1" none).2.2 = none ∧
    (dockerContainerCleanup ⟨some [("c1", 0)]⟩ "c1" none).2.1 = ⟨"c1", true⟩ ∧
    "c1" ∈ registryKeys (dockerContainerCleanup ⟨some [("c1", 0)]⟩ "c1" none).1 := by
  refine ⟨rfl, rfl, ?_⟩
  simp [dockerContainerCleanup, registryKeys]

/-- Claim C9, amended: a Container Handle's `Cleanup()` issues a forced
removal of its container but does not modify the Runner's registry at all —
the identifier stays registered and is reconciled later by the Collector's
not-found branch or by the Runner-level `Cleanup`. -/
theorem handle_cleanup_frame (s : RunnerState) (id : ContainerID)
    (rr : Option DockerError) :
    (dockerContainerCleanup s id rr).1 = s ∧
    (dockerContainerCleanup s id rr).2.1 = ⟨id, true⟩ ∧
    registryKeys (dockerContainerCleanup s id rr).1 = registryKeys s :=
  ⟨rfl, rfl, rfl⟩

/-! ## Claim C5: collector inspect failures -/

/-- Claim C5: during a collector pass, an inspection reporting that the
container no longer exists unregisters the identifier immediately (the
collector has no error channel at all, so nothing is raised); any other
inspection failure leaves the state — and hence the registry entry —
untouched; in both cases the pass continues with the remaining candidates. -/
theorem gc_inspect_failure_handling (s : RunnerState) (id : ContainerID)
    (e : DockerError) (rr : Option DockerError) (gcDelay now : Int) :
    (isNoSuchContainer e = true →
      processCandidate s id (.err e) rr gcDelay now = unrecordContainerID s id ∧
      id ∉ registryKeys (processCandidate s id (.err e) rr gcDelay now)) ∧
    (isNoSuchContainer e = false →
      processCandidate s id (.err e) rr gcDelay now = s) ∧
    (∀ rest, gcPass s gcDelay now ((id, .err e, rr) :: rest) =
      gcPass (processCandidate s id (.err e) rr gcDelay now) gcDelay now rest) := by
  refine ⟨fun h => ?_, fun h => ?_, fun rest => rfl⟩
  · rw [processCandidate, if_pos h]
    exact ⟨rfl, not_mem_registryKeys_unrecord s id⟩
  · rw [processCandidate, if_neg (by simp [h])]

/-- Witness for C5 at concrete inputs: a `NoSuchContainer` inspect failure
unregisters the single registered container. -/
theorem gc_inspect_failure_handling_witness :
    isNoSuchContainer .noSuchContainer = true ∧
    processCandidate ⟨some [("c1", 7)]⟩ "c1" (.err .noSuchContainer) none 10 100 =
      unrecordContainerID ⟨some [("c1", 7)]⟩ "c1" ∧
    "c1" ∉ registryKeys
      (processCandidate ⟨some [("c1", 7)]⟩ "c1" (.err .noSuchContainer) none 10 100) :=
  ⟨rfl,
    (gc_inspect_failure_handling ⟨some [("c1", 7)]⟩ "c1" .noSuchContainer none
        10 100).1 rfl⟩

/-! ## Claim C6: collector candidate snapshot -/

/-- Claim C6: the candidate set of one collector pass is exactly the registry
entries whose locally recorded timestamp is older than `now - gcDelay`; an
entry recorded within the last `gcDelay` is never inspected in that pass. -/
theorem gather_candidates_spec (s : RunnerState)
    (m : List (ContainerID × Int)) (gcDelay now : Int) (id : ContainerID)
    (h : s.containerIDs = some m) :
    id ∈ gatherCollectableContainerIDs s gcDelay now ↔
      ∃ ts, (id, ts) ∈ m ∧ ts < now - gcDelay := by
  obtain ⟨ids⟩ := s
  simp only [RunnerState.mk.injEq] at h
  subst h
  simp only [gatherCollectableContainerIDs, List.mem_map, List.mem_filter]
  constructor
  · rintro ⟨⟨a, ts⟩, ⟨hmem, hlt⟩, rfl⟩
    exact ⟨ts, hmem, by simpa using hlt⟩
  · rintro ⟨ts, hmem, hlt⟩
    exact ⟨(id, ts), ⟨hmem, by simpa using hlt⟩, rfl⟩

/-- Witness for C6: with one old and one fresh entry, the old one is a
candidate. -/
theorem gather_candidates_spec_witness :
    "old" ∈ gatherCollectableContainerIDs ⟨some [("old", 0), ("fresh", 95)]⟩ 10 100 :=
  (gather_candidates_spec ⟨some [("old", 0), ("fresh", 95)]⟩
      [("old", 0), ("fresh", 95)] 10 100 "old" rfl).mpr
    ⟨0, by simp, by decide⟩

/-! ## Claim C7: bulk Cleanup -/

/-- Claim C7: `Cleanup` issues a forced removal for every currently registered
container, returns no error, leaves the registry with no entries, and logs a
warning exactly for the registered containers whose removal failed with an
error other than "no such container" (a not-found response is benign). -/
theorem cleanup_effects (s : RunnerState)
    (rr : ContainerID → Option DockerError) :
    (Cleanup s rr).requests =
      (registryKeys s).map (fun id => ⟨id, true⟩) ∧
    (Cleanup s rr).state.containerIDs = none ∧
    registryKeys (Cleanup s rr).state = [] ∧
    (Cleanup s rr).err = none ∧
    ∀ id, id ∈ (Cleanup s rr).warnings ↔
      id ∈ registryKeys s ∧
        ∃ e, rr id = some e ∧ isNoSuchContainer e = false := by
  refine ⟨rfl, rfl, rfl, rfl, fun id => ?_⟩
  simp only [Cleanup, List.mem_filter]
  cases h : rr id with
  | none => simp [h]
  | some e => cases he : isNoSuchContainer e <;> simp [h, he]

/-- Witness for C7 on a concrete registry: both containers get forced removal
requests, the failed (other-error) one is warned about, the not-found one is
not, the registry ends empty, and no error is returned. -/
theorem cleanup_effects_witness :
    (Cleanup ⟨some [("a", 0), ("b", 1)]⟩
        (fun id => if id = "a" then some .otherError else some .noSuchContainer)).requests =
      [⟨"a", true⟩, ⟨"b", true⟩] ∧
    registryKeys (Cleanup ⟨some [("a", 0), ("b", 1)]⟩
        (fun id => if id = "a" then some .otherError else some .noSuchContainer)).state = [] ∧
    "a" ∈ (Cleanup ⟨some [("a", 0), ("b", 1)]⟩
        (fun id => if id = "a" then some .otherError else some .noSuchContainer)).warnings ∧
    "b" ∉ (Cleanup ⟨some [("a", 0), ("b", 1)]⟩
        (fun id => if id = "a" then some .otherError else some .noSuchContainer)).warnings := by
  have h := cleanup_effects ⟨some [("a", 0), ("b", 1)]⟩
    (fun id => if id = "a" then some .otherError else some .noSuchContainer)
  refine ⟨h.1, h.2.2.1, ?_, ?_⟩
  · exact (h.2.2.2.2 "a").mpr ⟨by decide, .otherError, by decide, rfl⟩
  · intro hmem
    obtain ⟨-, e, he, hns⟩ := (h.2.2.2.2 "b").mp hmem
    simp only [show ("b" : String) = "a" ↔ False by decide] at he
    rw [if_neg (by decide)] at he
    cases he
    cases hns

/-! ## Claim C8: the container-creation request built by Start -/

/-- Claim C8: the creation request strips all colons from the supplied name
(keeping every other character); every requested port `p` contributes the
exposed entry `p/tcp` and a binding of the same numeric port on host IP
`0.0.0.0`; with volumes-from configured only that reference is attached and
the volume list is ignored, otherwise each volume becomes the bind string
`hostPath:containerPath` with `:ro` appended exactly when read-only. -/
theorem start_creation_request (image user vf command : String)
    (args : List String) (volumes : List Volume) (ports : List Nat)
    (containerName : String) :
    (buildCreateContainerOptions image user vf command args volumes ports
        containerName).name.data =
      containerName.data.filter (fun c => c ≠ ':') ∧
    (∀ p, p ∈ ports →
      portKey p ∈ (buildCreateContainerOptions image user vf command args
          volumes ports containerName).config.exposedPorts ∧
      (portKey p, [⟨"0.0.0.0", toString p⟩]) ∈
        (buildCreateContainerOptions image user vf command args volumes ports
            containerName).hostConfig.portBindings) ∧
    (vf ≠ "" →
      (buildCreateContainerOptions image user vf command args volumes ports
          containerName).hostConfig.volumesFrom = [vf] ∧
      (buildCreateContainerOptions image user vf command args volumes ports
          containerName).hostConfig.binds = []) ∧
    (vf = "" →
      (buildCreateContainerOptions image user vf command args volumes ports
          containerName).hostConfig.volumesFrom = [] ∧
      (buildCreateContainerOptions image user vf command args volumes ports
          containerName).hostConfig.binds = volumes.map bindString) ∧
    (∀ v : Volume, bindString v =
      v.hostPath ++ ":" ++ v.containerPath ++
        (if v.readOnly then ":ro" else "")) := by
  refine ⟨rfl, fun p hp => ?_, fun h => ?_, fun h => ?_, fun v => ?_⟩
  · constructor
    · simpa [buildCreateContainerOptions] using List.mem_map_of_mem portKey hp
    · simpa [buildCreateContainerOptions] using
        List.mem_map_of_mem
          (fun p => (portKey p, [(⟨"0.0.0.0", toString p⟩ : PortBinding)])) hp
  · simp [buildCreateContainerOptions, h]
  · simp [buildCreateContainerOptions, h]
  · cases hr : v.readOnly <;>
      simp [bindString, hr, String.append_assoc]

/-- Witness for C8: the spec's example scenario — name `node:1` becomes
`node1`, port 8529 is exposed as `8529/tcp` and bound to host port 8529 on
all interfaces, and the single read-write volume becomes
`/host/data:/data`. -/
theorem start_creation_request_witness :
    (buildCreateContainerOptions "arangodb/arangodb" "" "" "arangod"
        ["--server.endpoint=tcp://0.0.0.0:8529"] [⟨"/host/data", "/data", false⟩]
        [8529] "node:1").name.data = "node:1".data.filter (fun c => c ≠ ':') ∧
    portKey 8529 ∈ (buildCreateContainerOptions "arangodb/arangodb" "" "" "arangod"
        ["--server.endpoint=tcp://0.0.0.0:8529"] [⟨"/host/data", "/data", false⟩]
        [8529] "node:1").config.exposedPorts ∧
    (portKey 8529, [⟨"0.0.0.0", toString 8529⟩]) ∈
      (buildCreateContainerOptions "arangodb/arangodb" "" "" "arangod"
          ["--server.endpoint=tcp://0.0.0.0:8529"] [⟨"/host/data", "/data", false⟩]
          [8529] "node:1").hostConfig.portBindings ∧
    (buildCreateContainerOptions "arangodb/arangodb" "" "" "arangod"
        ["--server.endpoint=tcp://0.0.0.0:8529"] [⟨"/host/data", "/data", false⟩]
        [8529] "node:1").hostConfig.binds =
      [⟨"/host/data", "/data", false⟩].map bindString := by
  have h := start_creation_request "arangodb/arangodb" "" "" "arangod"
    ["--server.endpoint=tcp://0.0.0.0:8529"] [⟨"/host/data", "/data", false⟩]
    [8529] "node:1"
  exact ⟨h.1, (h.2.1 8529 (by decide)).1, (h.2.1 8529 (by decide)).2,
    (h.2.2.2.1 rfl).2⟩

/-! ## Claim C3: Start failure propagation and registry effect -/

/-- Claim C3: a pull or create failure makes `Start` return an error with the
state — and so the registry — unchanged; a container-start failure after a
successful creation makes `Start` return an error with the new identifier
recorded; on full success the identifier is recorded and the handle
returned. -/
theorem start_failure_effects (s : RunnerState)
    (m : List (ContainerID × Int)) (now : Int) (id : ContainerID)
    (h : s.containerIDs = some m) :
    Start s now .pullFail = .err s ∧
    Start s now .createFail = .err s ∧
    Start s now (.startFail id) = .err ⟨some (insertAssoc m id now)⟩ ∧
    id ∈ registryKeys ⟨some (insertAssoc m id now)⟩ ∧
    Start s now (.ok id) = .ok id ⟨some (insertAssoc m id now)⟩ := by
  obtain ⟨ids⟩ := s
  simp only [RunnerState.mk.injEq] at h
  subst h
  exact ⟨rfl, rfl, rfl, mem_keys_insertAssoc m id now, rfl⟩

/-- Witness for C3 on the empty registry: all three failure shapes behave as
stated at concrete inputs. -/
theorem start_failure_effects_witness :
    Start ⟨some []⟩ 3 .pullFail = .err ⟨some []⟩ ∧
    Start ⟨some []⟩ 3 .createFail = .err ⟨some []⟩ ∧
    Start ⟨some []⟩ 3 (.startFail "c1") = .err ⟨some (insertAssoc [] "c1" 3)⟩ ∧
    "c1" ∈ registryKeys ⟨some (insertAssoc [] "c1" 3)⟩ ∧
    Start ⟨some []⟩ 3 (.ok "c1") = .ok "c1" ⟨some (insertAssoc [] "c1" 3)⟩ :=
  start_failure_effects ⟨some []⟩ [] 3 "c1" rfl

/-! ## Claim C2: the registry invariant over operation sequences -/

theorem applyOp_registryKeys (s s' : RunnerState) (op : Op)
    (h : applyOp s op = some s') :
    registryKeys s' = specStep (registryKeys s) op := by
  cases op with
  | start now o =>
    cases o with
    | pullFail =>
      simp only [applyOp, Start] at h
      cases h
      rfl
    | createFail =>
      simp only [applyOp, Start] at h
      cases h
      rfl
    | startFail id =>
      obtain ⟨ids⟩ := s
      cases ids with
      | none => simp [applyOp, Start, recordContainerID] at h
      | some m =>
        simp only [applyOp, Start, recordContainerID] at h
        cases h
        simpa [registryKeys, specStep] using map_fst_insertAssoc m id now
    | ok id =>
      obtain ⟨ids⟩ := s
      cases ids with
      | none => simp [applyOp, Start, recordContainerID] at h
      | some m =>
        simp only [applyOp, Start, recordContainerID] at h
        cases h
        simpa [registryKeys, specStep] using map_fst_insertAssoc m id now
  | cleanup rr =>
    simp only [applyOp] at h
    cases h
    rfl
  | collect id insp rr gcDelay now =>
    simp only [applyOp] at h
    cases h
    rw [processCandidate_eq_ite]
    by_cases hc : collectUnregisters insp rr gcDelay now = true
    · simp [hc, specStep, registryKeys_unrecord]
    · simp only [Bool.not_eq_true] at hc
      simp [hc, specStep]

theorem runFrom_registryKeys (ops : List Op) :
    ∀ (s s' : RunnerState), runFrom s ops = some s' →
      registryKeys s' = ops.foldl specStep (registryKeys s) := by
  induction ops with
  | nil =>
    intro s s' h
    simp only [runFrom] at h
    cases h
    rfl
  | cons op rest ih =>
    intro s s' h
    simp only [runFrom] at h
    cases happ : applyOp s op with
    | none => rw [happ] at h; cases h
    | some s1 =>
      rw [happ] at h
      rw [List.foldl_cons, ← applyOp_registryKeys s s1 op happ]
      exact ih s1 s' h

/-- Claim C2 counterexample: in the one-operation history where `Start`'s
container creation succeeds but the container start fails, `Start` returns an
error, yet its identifier is in the registry — while the claim's live set
(identifiers of successful `Start` calls only) is empty. -/
theorem registry_claim_counterexample :
    (runOps [Op.start 0 (.startFail "c1")]).map registryKeys = some ["c1"] ∧
    specLiveIDsClaimed [Op.start 0 (.startFail "c1")] = [] ∧
    (runOps [Op.start 0 (.startFail "c1")]).map registryKeys ≠
      some (specLiveIDsClaimed [Op.start 0 (.startFail "c1")]) := by
  refine ⟨rfl, rfl, ?_⟩
  decide

/-- Claim C2, amended: after any sequence of Start, Cleanup, and Collector
operations that does not panic, the registry contains exactly the identifiers
whose container creation succeeded (including `Start` calls that failed at
the container-start step after a successful creation) and which have not yet
been removed by Cleanup or the Collector. -/
theorem registry_matches_created_unremoved (ops : List Op) (s : RunnerState)
    (h : runOps ops = some s) :
    registryKeys s = specLiveIDs ops :=
  runFrom_registryKeys ops ⟨some []⟩ s h

/-- Witness for the amended C2 on a concrete history: a successful start, a
start that fails after creation, a collector reap of the first container, and
a failed (other-error) inspection of the second. -/
theorem registry_matches_created_unremoved_witness :
    runOps [Op.start 0 (.ok "a"), Op.start 1 (.startFail "b"),
        Op.collect "a" (.ok ⟨"exited", 2, 0⟩) none 10 100,
        Op.collect "b" (.err .otherError) none 10 100] = some ⟨some [("b", 1)]⟩ ∧
    registryKeys ⟨some [("b", 1)]⟩ =
      specLiveIDs [Op.start 0 (.ok "a"), Op.start 1 (.startFail "b"),
        Op.collect "a" (.ok ⟨"exited", 2, 0⟩) none 10 100,
        Op.collect "b" (.err .otherError) none 10 100] :=
  ⟨rfl,
    registry_matches_created_unremoved
      [Op.start 0 (.ok "a"), Op.start 1 (.startFail "b"),
        Op.collect "a" (.ok ⟨"exited", 2, 0⟩) none 10 100,
        Op.collect "b" (.err .otherError) none 10 100] ⟨some [("b", 1)]⟩ rfl⟩

end DockerRunner
